import Mathlib

/-!
Verification of the document question-answering chat application
(`document_processor.py`, `embeddings_manager.py`, `chat_engine.py`)
against its natural-language specification.

The repository code is shallowly embedded: pure Python functions become
Lean functions, object state becomes explicit record passing, exceptions
become `Except String`, and `os.getenv` becomes an `Option String`
argument.  Behaviour that lives in the langchain library rather than in
the repository (the recursive text splitter, the retrieval chain's
execution) is modelled from the specification and marked as such in the
corresponding doc comments.
-/

/-- A langchain `Document`: extracted text plus the two metadata fields the
repository reads (`source` and `page`, both possibly absent). -/
structure Document where
  page_content : String
  source : Option String
  page : Option String
deriving DecidableEq, Repr

/- ----------------------------------------------------------------- -/
/- document_processor.py                                             -/
/- ----------------------------------------------------------------- -/

/-- Split a character list at its last dot: `some (pre, ext)` where `ext`
starts with the last `'.'` of the list, `none` when there is no dot.
Helper for the `os.path.splitext` model. -/
def splitAtLastDot : List Char → Option (List Char × List Char)
  | [] => none
  | c :: rest =>
    match splitAtLastDot rest with
    | some (pre, ext) => some (c :: pre, ext)
    | none => if c = '.' then some ([], c :: rest) else none

/-- The part of a path after its last `'/'`. -/
def basenameOf (cs : List Char) : List Char :=
  (cs.reverse.takeWhile (fun c => c != '/')).reverse

/-- The extension part of `os.path.splitext`: the suffix of the basename
starting at its last dot, provided some character of the basename before
that dot is not itself a dot (so `.bashrc` has no extension); empty
otherwise. -/
def splitext_ext (path : String) : String :=
  let b := basenameOf path.toList
  match splitAtLastDot b with
  | some (pre, ext) => if pre.any (fun c => c != '.') then String.mk ext else ""
  | none => ""

/-- Python's `str.lower`, character by character. -/
def strLower (s : String) : String := String.mk (s.toList.map Char.toLower)

namespace DocumentProcessor

/-- One iteration of the loop body of `DocumentProcessor.load_documents`:
dispatch on the lowercased extension of `path`.  `.pdf` runs the PDF
loader, `.xlsx`/`.xls` run the Excel loader, anything else is skipped
with a warning (modelled as successfully contributing no documents).
The two loaders stand for `PyPDFLoader(path).load()` and
`UnstructuredExcelLoader(path, mode="elements").load()`, which are
library calls that may fail with an arbitrary message. -/
def processPath (pdfLoad excelLoad : String → Except String (List Document))
    (path : String) : Except String (List Document) :=
  let file_extension := strLower (splitext_ext path)
  if file_extension = ".pdf" then pdfLoad path
  else if file_extension = ".xlsx" ∨ file_extension = ".xls" then excelLoad path
  else Except.ok []

/-- `DocumentProcessor.load_documents`: fold `processPath` over the paths,
accumulating the loaded documents in order; the first failure is re-raised
(the Python `except` clause prints and then bare-`raise`s), so an error
aborts the batch and no accumulated documents are returned. -/
def load_documents (pdfLoad excelLoad : String → Except String (List Document)) :
    List String → Except String (List Document)
  | [] => Except.ok []
  | p :: ps =>
    match processPath pdfLoad excelLoad p with
    | Except.error e => Except.error e
    | Except.ok docs =>
      match load_documents pdfLoad excelLoad ps with
      | Except.error e => Except.error e
      | Except.ok rest => Except.ok (docs ++ rest)

/-- Modelled from the spec: `RecursiveCharacterTextSplitter.split_text` is
langchain library code, not part of this repository; the spec describes the
splitter as breaking a long text into overlapping fixed-size windows, each
at most `chunk_size` characters, consecutive windows sharing
`chunk_overlap` characters.  `fuel` bounds the recursion (each step
consumes at least one character when `chunk_overlap < chunk_size`);
calling with `fuel = t.length` is exact. -/
def windowsAux (fuel chunk_size chunk_overlap : Nat) (t : List Char) :
    List (List Char) :=
  match fuel with
  | 0 => [t]
  | fuel + 1 =>
    if t.length ≤ chunk_size ∨ chunk_size ≤ chunk_overlap then [t]
    else t.take chunk_size ::
      windowsAux fuel chunk_size chunk_overlap (t.drop (chunk_size - chunk_overlap))

/-- Modelled from the spec: the overlapping fixed-size windows of a text
(see `windowsAux`). -/
def windows (chunk_size chunk_overlap : Nat) (t : List Char) : List (List Char) :=
  windowsAux t.length chunk_size chunk_overlap t

/-- A chunk produced by the splitter: a window of the parent document's
text together with the parent's metadata, copied unchanged. -/
structure Chunk where
  text : List Char
  source : Option String
  page : Option String
deriving DecidableEq, Repr

/-- The chunks contributed by one document. -/
def docChunks (chunk_size chunk_overlap : Nat) (d : Document) : List Chunk :=
  (windows chunk_size chunk_overlap d.page_content.toList).map
    (fun w => { text := w, source := d.source, page := d.page })

/-- Modelled from the spec: `DocumentProcessor.split_documents` delegates
to the langchain splitter; each document is split into overlapping windows
carrying the parent metadata, and the per-document chunk lists are
concatenated in order. -/
def split_documents (chunk_size chunk_overlap : Nat) (docs : List Document) :
    List Chunk :=
  docs.flatMap (docChunks chunk_size chunk_overlap)

end DocumentProcessor

/- ----------------------------------------------------------------- -/
/- embeddings_manager.py                                             -/
/- ----------------------------------------------------------------- -/

/-- `HuggingFaceEmbeddings` as configured by `EmbeddingsManager.__init__`:
the chosen model name, with embedding normalization switched on. -/
structure HuggingFaceEmbeddings where
  model_name : String
  normalize_embeddings : Bool
deriving DecidableEq, Repr

/-- `EmbeddingsManager.__init__`: wraps the chosen HuggingFace model with
`normalize_embeddings = True` (the console print is dropped). -/
def EmbeddingsManager.init (model : String) : HuggingFaceEmbeddings :=
  { model_name := model, normalize_embeddings := true }

/-- A FAISS vector store: the indexed documents together with the
embedding function used to build it. -/
structure FAISS where
  documents : List Document
  embedding : HuggingFaceEmbeddings
deriving DecidableEq, Repr

/-- `FAISS.from_documents` (library constructor): index the given
documents under the given embedding. -/
def FAISS.from_documents (documents : List Document)
    (embedding : HuggingFaceEmbeddings) : FAISS :=
  { documents := documents, embedding := embedding }

/-- `EmbeddingsManager.create_vector_store`: an empty chunk list raises
`ValueError("No chunks provided to create vector store")`; otherwise the
store is built with `FAISS.from_documents` (the optional persistence save
is a side effect on disk and returns the same store). -/
def EmbeddingsManager.create_vector_store (self : HuggingFaceEmbeddings)
    (chunks : List Document) (_persist_directory : Option String) :
    Except String FAISS :=
  if chunks.isEmpty then Except.error "No chunks provided to create vector store"
  else Except.ok (FAISS.from_documents chunks self)

/- ----------------------------------------------------------------- -/
/- chat_engine.py                                                    -/
/- ----------------------------------------------------------------- -/

/-- `ChatAnthropic` as constructed by the engine: the four keyword
arguments the repository passes. -/
structure ChatAnthropic where
  model : String
  temperature : ℚ
  max_tokens : Nat
  anthropic_api_key : Option String
deriving DecidableEq, Repr

/-- `ConversationBufferMemory` contents: the ordered (question, answer)
turns accumulated so far. -/
abbrev ChatMemory := List (String × String)

/-- A retriever over a vector store with its `k` search parameter
(`vector_store.as_retriever(search_kwargs={"k": 4})`). -/
structure Retriever where
  store : FAISS
  k : Nat
deriving DecidableEq, Repr

/-- `vector_store.as_retriever`. -/
def FAISS.as_retriever (self : FAISS) (k : Nat) : Retriever :=
  { store := self, k := k }

/-- `ConversationalRetrievalChain` as configured by the engine: the bound
LLM client, retriever, memory, and the two flags the repository passes. -/
structure ConversationalRetrievalChain where
  llm : ChatAnthropic
  retriever : Retriever
  memory : ChatMemory
  return_source_documents : Bool
  verbose : Bool
deriving DecidableEq, Repr

/-- `ConversationalRetrievalChain.from_llm` (library constructor). -/
def ConversationalRetrievalChain.from_llm (llm : ChatAnthropic)
    (retriever : Retriever) (memory : ChatMemory)
    (return_source_documents verbose : Bool) : ConversationalRetrievalChain :=
  { llm := llm
    retriever := retriever
    memory := memory
    return_source_documents := return_source_documents
    verbose := verbose }

/-- Python truthiness of an optional environment variable: `os.getenv`
returns `None` when absent, and `if not api_key` also treats the empty
string as missing. -/
def pythonTruthy : Option String → Bool
  | none => false
  | some s => !s.isEmpty

/-- The state of a `ChatEngine` object: the stored settings, the vector
store, the LLM client, the conversation memory and the retrieval chain. -/
structure ChatEngine where
  vector_store : FAISS
  temperature : ℚ
  max_tokens : Nat
  model : String
  llm : ChatAnthropic
  memory : ChatMemory
  chain : ConversationalRetrievalChain
deriving DecidableEq, Repr

/-- `ChatEngine.__init__`: reads `ANTHROPIC_API_KEY` from the environment
and fails immediately when it is missing or empty; otherwise builds the
LLM client, a fresh memory, and the retrieval chain over the supplied
vector store with `k = 4`. -/
def ChatEngine.init (env_ANTHROPIC_API_KEY : Option String)
    (vector_store : FAISS) (model : String) (temperature : ℚ)
    (max_tokens : Nat) : Except String ChatEngine :=
  if !pythonTruthy env_ANTHROPIC_API_KEY then
    Except.error "ANTHROPIC_API_KEY not found in environment variables"
  else
    let llm : ChatAnthropic :=
      { model := model
        temperature := temperature
        max_tokens := max_tokens
        anthropic_api_key := env_ANTHROPIC_API_KEY }
    let memory : ChatMemory := []
    Except.ok
      { vector_store := vector_store
        temperature := temperature
        max_tokens := max_tokens
        model := model
        llm := llm
        memory := memory
        chain := ConversationalRetrievalChain.from_llm llm
          (vector_store.as_retriever 4) memory true false }

/-- What a chain invocation returns on success: the generated answer and
the retrieved source documents. -/
structure ChainOutput where
  answer : String
  source_documents : List Document
deriving DecidableEq, Repr

/-- The dictionary `ChatEngine.get_response` returns. -/
structure ResponseDict where
  answer : String
  sources : List String
deriving DecidableEq, Repr

/-- Modelled from the spec: executing `self.chain({"question": query})` is
langchain library code, not part of this repository.  Per the spec, a run
retrieves, generates, and on success commits the finished exchange to the
conversation memory; on a failure in either phase it raises the underlying
error and commits nothing to memory.  A run is therefore any function from
the chain, the current memory and the query to either the failure message
or the output paired with the updated memory. -/
def ChainRun : Type :=
  ConversationalRetrievalChain → ChatMemory → String →
    Except String (ChainOutput × ChatMemory)

/-- The per-document citation string built inside `ChatEngine.get_response`:
`f"{source_info} (Page {page})\n{content_preview}"` with `"Unknown"` and
`"N/A"` substituted for missing metadata and the content preview truncated
to 200 characters with an `"..."` suffix when longer. -/
def source_entry (doc : Document) : String :=
  let source_info := doc.source.getD "Unknown"
  let page := doc.page.getD "N/A"
  let content_preview :=
    if doc.page_content.length > 200 then doc.page_content.take 200 ++ "..."
    else doc.page_content
  source_info ++ " (Page " ++ page ++ ")\n" ++ content_preview

/-- `ChatEngine.get_response`: run the chain on the query; on success
return the answer with one formatted citation per retrieved source
document (the engine's memory now holds the committed exchange); on any
failure raise a single wrapped error carrying the original message, the
engine state unchanged.  The result pairs the post-call engine state with
the returned dictionary or the raised error. -/
def ChatEngine.get_response (run : ChainRun) (self : ChatEngine)
    (query : String) : ChatEngine × Except String ResponseDict :=
  match run self.chain self.memory query with
  | Except.error e => (self, Except.error ("Error generating response: " ++ e))
  | Except.ok (out, mem) =>
    ({ self with memory := mem, chain := { self.chain with memory := mem } },
     Except.ok { answer := out.answer
                 sources := out.source_documents.map source_entry })

/-- The condition under which `ChatEngine.update_settings` sets
`recreate_llm`: some supplied value differs from the stored setting. -/
def settingsChanged (self : ChatEngine) (temperature : Option ℚ)
    (max_tokens : Option Nat) (model : Option String) : Bool :=
  (match temperature with
   | some t => decide (t ≠ self.temperature)
   | none => false) ||
  (match max_tokens with
   | some t => decide (t ≠ self.max_tokens)
   | none => false) ||
  (match model with
   | some t => decide (t ≠ self.model)
   | none => false)

/-- `ChatEngine.update_settings`: store each supplied value; when some
supplied value differed from the stored one, rebuild the LLM client from
the (re-read, unvalidated) `ANTHROPIC_API_KEY` and the updated settings,
and rebuild the retrieval chain over the new LLM, the same vector store
and the same memory; otherwise leave the LLM and chain alone. -/
def ChatEngine.update_settings (self : ChatEngine)
    (env_ANTHROPIC_API_KEY : Option String) (temperature : Option ℚ)
    (max_tokens : Option Nat) (model : Option String) : ChatEngine :=
  let temp := temperature.getD self.temperature
  let mt := max_tokens.getD self.max_tokens
  let mdl := model.getD self.model
  if settingsChanged self temperature max_tokens model then
    let api_key := env_ANTHROPIC_API_KEY
    let llm : ChatAnthropic :=
      { model := mdl
        temperature := temp
        max_tokens := mt
        anthropic_api_key := api_key }
    { self with
      temperature := temp
      max_tokens := mt
      model := mdl
      llm := llm
      chain := ConversationalRetrievalChain.from_llm llm
        (self.vector_store.as_retriever 4) self.memory true false }
  else
    { self with temperature := temp, max_tokens := mt, model := mdl }

/-- `ChatEngine.clear_memory`: discard all turns.  The chain shares the
memory object, so its view is cleared too. -/
def ChatEngine.clear_memory (self : ChatEngine) : ChatEngine :=
  { self with memory := [], chain := { self.chain with memory := [] } }

/-- The chain of a well-formed engine is bound to the engine's own memory
and vector store, as `__init__` sets it up. -/
def ChatEngine.Wf (self : ChatEngine) : Prop :=
  self.chain.memory = self.memory ∧
    self.chain.retriever = self.vector_store.as_retriever 4

/- ----------------------------------------------------------------- -/
/- Sample objects used as concrete inputs                            -/
/- ----------------------------------------------------------------- -/

/-- A sample extracted document. -/
def sampleDoc : Document :=
  { page_content := "hello world", source := some "f.pdf", page := some "1" }

/-- A sample vector store over `sampleDoc`. -/
def sampleStore : FAISS :=
  FAISS.from_documents [sampleDoc]
    (EmbeddingsManager.init "sentence-transformers/all-MiniLM-L6-v2")

/-- The LLM client a default-settings engine holds. -/
def sampleLLM : ChatAnthropic :=
  { model := "claude-3-5-sonnet-20241022", temperature := 0, max_tokens := 1024,
    anthropic_api_key := some "test-key" }

/-- The engine produced by `ChatEngine.init (some "test-key") sampleStore`
with the default settings. -/
def sampleEngine : ChatEngine :=
  { vector_store := sampleStore, temperature := 0, max_tokens := 1024,
    model := "claude-3-5-sonnet-20241022", llm := sampleLLM, memory := [],
    chain := ConversationalRetrievalChain.from_llm sampleLLM
      (sampleStore.as_retriever 4) [] true false }

/-- A sample PDF loader: `a.pdf` parses to `sampleDoc`, anything else
fails to parse. -/
def samplePdfLoad : String → Except String (List Document) :=
  fun path => if path = "a.pdf" then Except.ok [sampleDoc]
    else Except.error "parse failure"

/-- A sample Excel loader that loads nothing. -/
def sampleExcelLoad : String → Except String (List Document) :=
  fun _ => Except.ok []

/- ----------------------------------------------------------------- -/
/- Claims                                                            -/
/- ----------------------------------------------------------------- -/

/-- C1: building the vector store from an empty chunk sequence fails with
the error `"No chunks provided to create vector store"` and never returns
a usable index; from a non-empty chunk sequence the error branch is not
taken and the FAISS index over exactly those chunks is returned. -/
theorem create_vector_store_empty_fails_nonempty_succeeds
    (em : HuggingFaceEmbeddings) (chunks : List Document) (pd : Option String) :
    (chunks = [] →
      EmbeddingsManager.create_vector_store em chunks pd =
        Except.error "No chunks provided to create vector store") ∧
    (chunks ≠ [] →
      EmbeddingsManager.create_vector_store em chunks pd =
        Except.ok (FAISS.from_documents chunks em)) := by
  constructor
  · intro h
    subst h
    rfl
  · intro h
    cases chunks with
    | nil => exact absurd rfl h
    | cons c cs => rfl

/-- C1 witness: the empty and a one-chunk build, evaluated concretely. -/
theorem create_vector_store_witness :
    EmbeddingsManager.create_vector_store
        (EmbeddingsManager.init "sentence-transformers/all-MiniLM-L6-v2") [] none =
      Except.error "No chunks provided to create vector store" ∧
    EmbeddingsManager.create_vector_store
        (EmbeddingsManager.init "sentence-transformers/all-MiniLM-L6-v2") [sampleDoc] none =
      Except.ok (FAISS.from_documents [sampleDoc]
        (EmbeddingsManager.init "sentence-transformers/all-MiniLM-L6-v2")) :=
  ⟨(create_vector_store_empty_fails_nonempty_succeeds _ _ _).1 rfl,
   (create_vector_store_empty_fails_nonempty_succeeds _ _ _).2 (by simp)⟩

/-- C7: with `ANTHROPIC_API_KEY` absent from the environment, constructing
the engine fails immediately with the configuration error, and no engine
is ever produced on which `get_response` could later be called. -/
theorem init_missing_key_fails (vs : FAISS) (mdl : String) (tp : ℚ) (mtk : Nat) :
    ChatEngine.init none vs mdl tp mtk =
      Except.error "ANTHROPIC_API_KEY not found in environment variables" ∧
    ∀ e : ChatEngine, ChatEngine.init none vs mdl tp mtk ≠ Except.ok e := by
  refine ⟨rfl, ?_⟩
  intro e h
  exact Except.noConfusion h

/-- C7 witness: construction with a missing key at a concrete store. -/
theorem init_missing_key_fails_witness :
    ChatEngine.init none sampleStore "claude-3-5-sonnet-20241022" 0 1024 =
      Except.error "ANTHROPIC_API_KEY not found in environment variables" :=
  (init_missing_key_fails sampleStore "claude-3-5-sonnet-20241022" 0 1024).1

/-- C6: when the chain run fails, `get_response` raises exactly one wrapped
error whose message is the original failure message prefixed with
`"Error generating response: "`, and the engine state — in particular the
conversation memory — is unchanged by the failed call. -/
theorem get_response_failure (run : ChainRun) (e : ChatEngine) (q msg : String)
    (h : run e.chain e.memory q = Except.error msg) :
    ChatEngine.get_response run e q =
      (e, Except.error ("Error generating response: " ++ msg)) ∧
    (ChatEngine.get_response run e q).1.memory = e.memory := by
  refine ⟨?_, ?_⟩ <;> simp [ChatEngine.get_response, h]

/-- C6 witness: a chain run failing with `"boom"` on the sample engine. -/
theorem get_response_failure_witness :
    ChatEngine.get_response (fun _ _ _ => Except.error "boom") sampleEngine "q" =
      (sampleEngine, Except.error ("Error generating response: " ++ "boom")) :=
  (get_response_failure (fun _ _ _ => Except.error "boom") sampleEngine "q" "boom" rfl).1

/-- C4: on a successful chain run the response's sources are exactly one
citation per retrieved document, formatted
`"<source file> (Page <page or N/A>)\n<content preview>"`, the preview
being the full content when it has at most 200 characters and the first
200 characters with `"..."` appended when longer, with `"Unknown"` and
`"N/A"` substituted for missing source and page metadata. -/
theorem get_response_citation_format (run : ChainRun) (e : ChatEngine)
    (q : String) (out : ChainOutput) (mem : ChatMemory)
    (h : run e.chain e.memory q = Except.ok (out, mem)) :
    (ChatEngine.get_response run e q).2 =
      Except.ok { answer := out.answer
                  sources := out.source_documents.map source_entry } ∧
    ∀ doc : Document,
      (doc.page_content.length ≤ 200 →
        source_entry doc =
          doc.source.getD "Unknown" ++ " (Page " ++ doc.page.getD "N/A" ++
            ")\n" ++ doc.page_content) ∧
      (200 < doc.page_content.length →
        source_entry doc =
          doc.source.getD "Unknown" ++ " (Page " ++ doc.page.getD "N/A" ++
            ")\n" ++ (doc.page_content.take 200 ++ "...")) := by
  refine ⟨by simp [ChatEngine.get_response, h], ?_⟩
  intro doc
  constructor
  · intro hl
    simp only [source_entry]
    rw [if_neg (by omega)]
  · intro hl
    simp only [source_entry]
    rw [if_pos (by omega)]

/-- C4 witness: a successful run retrieving `sampleDoc`, whose citation is
evaluated concretely. -/
theorem get_response_citation_format_witness :
    (ChatEngine.get_response
        (fun _ _ _ => Except.ok ({ answer := "A", source_documents := [sampleDoc] }, [("q", "A")]))
        sampleEngine "q").2 =
      Except.ok { answer := "A", sources := [sampleDoc].map source_entry } ∧
    source_entry sampleDoc = "f.pdf" ++ " (Page " ++ "1" ++ ")\n" ++ "hello world" :=
  ⟨(get_response_citation_format
      (fun _ _ _ => Except.ok ({ answer := "A", source_documents := [sampleDoc] }, [("q", "A")]))
      sampleEngine "q" _ _ rfl).1,
   ((get_response_citation_format
      (fun _ _ _ => Except.ok ({ answer := "A", source_documents := [sampleDoc] }, [("q", "A")]))
      sampleEngine "q" _ _ rfl).2 sampleDoc).1 (by decide)⟩

/-- The `recreate_llm` flag of `update_settings` is set exactly when some
supplied value differs from the stored setting. -/
theorem settingsChanged_iff (e : ChatEngine) (t : Option ℚ) (mt : Option Nat)
    (m : Option String) :
    settingsChanged e t mt m = true ↔
      (∃ v, t = some v ∧ v ≠ e.temperature) ∨
        (∃ v, mt = some v ∧ v ≠ e.max_tokens) ∨
          (∃ v, m = some v ∧ v ≠ e.model) := by
  cases t <;> cases mt <;> cases m <;> simp [settingsChanged, or_assoc]

/-- The `recreate_llm` flag is clear exactly when every supplied value
equals the stored setting. -/
theorem settingsChanged_false_iff (e : ChatEngine) (t : Option ℚ)
    (mt : Option Nat) (m : Option String) :
    settingsChanged e t mt m = false ↔
      (∀ v, t = some v → v = e.temperature) ∧
        (∀ v, mt = some v → v = e.max_tokens) ∧
          (∀ v, m = some v → v = e.model) := by
  cases t <;> cases mt <;> cases m <;> simp [settingsChanged, and_assoc]

/-- C5: when at least one supplied setting differs from the stored one,
both the LLM client and the retrieval chain are reconstructed with the
new settings; when every supplied value equals the stored setting,
neither is reconstructed. -/
theorem update_settings_reconstruction (e : ChatEngine) (env : Option String)
    (t : Option ℚ) (mt : Option Nat) (m : Option String) :
    ((∃ v, t = some v ∧ v ≠ e.temperature) ∨
        (∃ v, mt = some v ∧ v ≠ e.max_tokens) ∨
          (∃ v, m = some v ∧ v ≠ e.model) →
      (e.update_settings env t mt m).llm =
        { model := m.getD e.model
          temperature := t.getD e.temperature
          max_tokens := mt.getD e.max_tokens
          anthropic_api_key := env } ∧
      (e.update_settings env t mt m).chain =
        ConversationalRetrievalChain.from_llm (e.update_settings env t mt m).llm
          (e.vector_store.as_retriever 4) e.memory true false) ∧
    ((∀ v, t = some v → v = e.temperature) ∧
        (∀ v, mt = some v → v = e.max_tokens) ∧
          (∀ v, m = some v → v = e.model) →
      (e.update_settings env t mt m).llm = e.llm ∧
      (e.update_settings env t mt m).chain = e.chain) := by
  constructor
  · intro h
    have hc : settingsChanged e t mt m = true := (settingsChanged_iff e t mt m).mpr h
    simp [ChatEngine.update_settings, hc]
  · intro h
    have hc : settingsChanged e t mt m = false :=
      (settingsChanged_false_iff e t mt m).mpr h
    simp [ChatEngine.update_settings, hc]

/-- C5 witness: changing the temperature rebuilds the LLM client with the
new settings; supplying no differing value leaves the client alone. -/
theorem update_settings_reconstruction_witness :
    (sampleEngine.update_settings (some "test-key") (some (1/2)) none none).llm =
      { model := "claude-3-5-sonnet-20241022"
        temperature := 1/2
        max_tokens := 1024
        anthropic_api_key := some "test-key" } ∧
    (sampleEngine.update_settings (some "test-key") (some 0) none none).llm =
      sampleEngine.llm ∧
    (sampleEngine.update_settings (some "test-key") (some 0) none none).chain =
      sampleEngine.chain :=
  ⟨((update_settings_reconstruction sampleEngine (some "test-key") (some (1/2)) none none).1
      (Or.inl ⟨1/2, rfl, by norm_num [sampleEngine]⟩)).1,
   ((update_settings_reconstruction sampleEngine (some "test-key") (some 0) none none).2
      (by simp [sampleEngine])).1,
   ((update_settings_reconstruction sampleEngine (some "test-key") (some 0) none none).2
      (by simp [sampleEngine])).2⟩

/-- C9: `update_settings` leaves the conversation memory and the vector
store untouched, and the chain — rebuilt or kept — remains bound to
exactly that memory and that vector store (with `k = 4`). -/
theorem update_settings_frame (e : ChatEngine) (env : Option String)
    (t : Option ℚ) (mt : Option Nat) (m : Option String) (hwf : e.Wf) :
    (e.update_settings env t mt m).memory = e.memory ∧
    (e.update_settings env t mt m).vector_store = e.vector_store ∧
    (e.update_settings env t mt m).Wf := by
  obtain ⟨h1, h2⟩ := hwf
  cases hc : settingsChanged e t mt m <;>
    simp [ChatEngine.update_settings, hc, ChatEngine.Wf,
      ConversationalRetrievalChain.from_llm, h1, h2]

/-- C9 witness: a temperature change on the sample engine preserves its
memory and vector store. -/
theorem update_settings_frame_witness :
    (sampleEngine.update_settings (some "test-key") (some (1/2)) none none).memory =
      sampleEngine.memory ∧
    (sampleEngine.update_settings (some "test-key") (some (1/2)) none none).vector_store =
      sampleEngine.vector_store :=
  ⟨(update_settings_frame sampleEngine (some "test-key") (some (1/2)) none none
      ⟨rfl, rfl⟩).1,
   (update_settings_frame sampleEngine (some "test-key") (some (1/2)) none none
      ⟨rfl, rfl⟩).2.1⟩

/-- C10: a settings change made while `ANTHROPIC_API_KEY` is unset
completes without the configuration error — `update_settings` is a total
function, unlike the constructor, which fails on the same environment —
and rebuilds the LLM client with a missing (`none`) key. -/
theorem update_settings_no_credential_check (e : ChatEngine)
    (t : Option ℚ) (mt : Option Nat) (m : Option String)
    (h : (∃ v, t = some v ∧ v ≠ e.temperature) ∨
      (∃ v, mt = some v ∧ v ≠ e.max_tokens) ∨
        (∃ v, m = some v ∧ v ≠ e.model)) :
    (e.update_settings none t mt m).llm =
      { model := m.getD e.model
        temperature := t.getD e.temperature
        max_tokens := mt.getD e.max_tokens
        anthropic_api_key := none } ∧
    (e.update_settings none t mt m).llm.anthropic_api_key = none ∧
    ∀ vs : FAISS, ChatEngine.init none vs (m.getD e.model) (t.getD e.temperature)
        (mt.getD e.max_tokens) =
      Except.error "ANTHROPIC_API_KEY not found in environment variables" := by
  have hc : settingsChanged e t mt m = true := (settingsChanged_iff e t mt m).mpr h
  refine ⟨?_, ?_, fun vs => rfl⟩ <;> simp [ChatEngine.update_settings, hc]

/-- C10 witness: a temperature change with the environment variable unset
produces an LLM client whose key is `none`. -/
theorem update_settings_no_credential_check_witness :
    (sampleEngine.update_settings none (some (1/2)) none none).llm =
      { model := "claude-3-5-sonnet-20241022"
        temperature := 1/2
        max_tokens := 1024
        anthropic_api_key := none } ∧
    (sampleEngine.update_settings none (some (1/2)) none none).llm.anthropic_api_key =
      none :=
  ⟨(update_settings_no_credential_check sampleEngine (some (1/2)) none none
      (Or.inl ⟨1/2, rfl, by norm_num [sampleEngine]⟩)).1,
   (update_settings_no_credential_check sampleEngine (some (1/2)) none none
      (Or.inl ⟨1/2, rfl, by norm_num [sampleEngine]⟩)).2.1⟩

/-- C2: the first failing extraction aborts the whole batch:
`load_documents` re-raises that error with its original message and
returns nothing — the documents already loaded from earlier paths in the
batch included. -/
theorem load_documents_fail_fast
    (pdfLoad excelLoad : String → Except String (List Document))
    (pre : List String) (p : String) (post : List String) (msg : String)
    (hpre : ∀ q ∈ pre, ∃ ds, DocumentProcessor.processPath pdfLoad excelLoad q =
      Except.ok ds)
    (hp : DocumentProcessor.processPath pdfLoad excelLoad p = Except.error msg) :
    DocumentProcessor.load_documents pdfLoad excelLoad (pre ++ p :: post) =
      Except.error msg ∧
    ∀ ds, DocumentProcessor.load_documents pdfLoad excelLoad (pre ++ p :: post) ≠
      Except.ok ds := by
  have main : DocumentProcessor.load_documents pdfLoad excelLoad (pre ++ p :: post) =
      Except.error msg := by
    induction pre with
    | nil => simp [DocumentProcessor.load_documents, hp]
    | cons q qs ih =>
      obtain ⟨ds, hq⟩ := hpre q (by simp)
      have ih' := ih fun r hr => hpre r (by simp [hr])
      simp [DocumentProcessor.load_documents, hq, ih']
  refine ⟨main, fun ds h => ?_⟩
  rw [main] at h
  exact Except.noConfusion h

/-- C2 witness: in the batch `["a.pdf", "b.pdf", "c.xlsx"]` the second
file fails to parse, so the whole batch fails with that message even
though `a.pdf` had already loaded. -/
theorem load_documents_fail_fast_witness :
    DocumentProcessor.load_documents samplePdfLoad sampleExcelLoad
        ["a.pdf", "b.pdf", "c.xlsx"] =
      Except.error "parse failure" :=
  (load_documents_fail_fast samplePdfLoad sampleExcelLoad
    ["a.pdf"] "b.pdf" ["c.xlsx"] "parse failure"
    (by
      intro q hq
      simp only [List.mem_singleton] at hq
      subst hq
      exact ⟨[sampleDoc], rfl⟩)
    rfl).1

/-- C8: a path whose lowercased extension is neither `.pdf` nor
`.xlsx`/`.xls` is skipped: it contributes no documents and does not abort
the batch, which proceeds exactly as if the path were absent. -/
theorem load_documents_skips_unsupported
    (pdfLoad excelLoad : String → Except String (List Document))
    (pre post : List String) (p : String)
    (h : ¬(strLower (splitext_ext p) = ".pdf" ∨ strLower (splitext_ext p) = ".xlsx" ∨
      strLower (splitext_ext p) = ".xls")) :
    DocumentProcessor.load_documents pdfLoad excelLoad (pre ++ p :: post) =
      DocumentProcessor.load_documents pdfLoad excelLoad (pre ++ post) := by
  push_neg at h
  have hp : DocumentProcessor.processPath pdfLoad excelLoad p = Except.ok [] := by
    unfold DocumentProcessor.processPath
    rw [if_neg h.1, if_neg (not_or.mpr ⟨h.2.1, h.2.2⟩)]
  induction pre with
  | nil =>
    cases hrest : DocumentProcessor.load_documents pdfLoad excelLoad post <;>
      simp [DocumentProcessor.load_documents, hp, hrest]
  | cons q qs ih =>
    cases hq : DocumentProcessor.processPath pdfLoad excelLoad q <;>
      simp [DocumentProcessor.load_documents, hq, ih]

/-- C8 witness: a `.txt` file in the middle of a batch is skipped and the
batch result is the same as without it. -/
theorem load_documents_skips_unsupported_witness :
    DocumentProcessor.load_documents samplePdfLoad sampleExcelLoad
        ["a.pdf", "notes.txt"] =
      DocumentProcessor.load_documents samplePdfLoad sampleExcelLoad ["a.pdf"] :=
  load_documents_skips_unsupported samplePdfLoad sampleExcelLoad
    ["a.pdf"] [] "notes.txt" (by decide)

/-- Every window has at most `chunk_size` characters (given enough fuel
and a sane overlap). -/
theorem windowsAux_sizes (chunk_size chunk_overlap : Nat)
    (h : chunk_overlap < chunk_size) :
    ∀ (fuel : Nat) (t : List Char), t.length ≤ fuel →
      ∀ c ∈ DocumentProcessor.windowsAux fuel chunk_size chunk_overlap t,
        c.length ≤ chunk_size := by
  intro fuel
  induction fuel with
  | zero =>
    intro t ht c hc
    have ht0 : t = [] := List.length_eq_zero.mp (Nat.le_zero.mp ht)
    subst ht0
    simp only [DocumentProcessor.windowsAux, List.mem_singleton] at hc
    subst hc
    simp
  | succ n ih =>
    intro t ht c hc
    rw [DocumentProcessor.windowsAux] at hc
    by_cases hcond : t.length ≤ chunk_size ∨ chunk_size ≤ chunk_overlap
    · rw [if_pos hcond] at hc
      simp only [List.mem_singleton] at hc
      subst hc
      rcases hcond with h1 | h2
      · exact h1
      · exact absurd h2 (Nat.not_le.mpr h)
    · rw [if_neg hcond] at hc
      push_neg at hcond
      rcases List.mem_cons.mp hc with hc | hc
      · subst hc
        rw [List.length_take]
        exact Nat.min_le_left _ _
      · have hd : (t.drop (chunk_size - chunk_overlap)).length ≤ n := by
          rw [List.length_drop]
          omega
        exact ih _ hd c hc

/-- The window list is nonempty and its head starts with the same
`chunk_overlap` characters as the text it was produced from. -/
theorem windowsAux_head (chunk_size chunk_overlap : Nat)
    (hco : chunk_overlap ≤ chunk_size) (fuel : Nat) (u : List Char) :
    ∃ v l, DocumentProcessor.windowsAux fuel chunk_size chunk_overlap u = v :: l ∧
      v.take chunk_overlap = u.take chunk_overlap ∧
      min chunk_overlap u.length ≤ v.length := by
  cases fuel with
  | zero => exact ⟨u, [], rfl, rfl, Nat.min_le_right _ _⟩
  | succ n =>
    rw [DocumentProcessor.windowsAux]
    by_cases hcond : u.length ≤ chunk_size ∨ chunk_size ≤ chunk_overlap
    · rw [if_pos hcond]
      exact ⟨u, [], rfl, rfl, Nat.min_le_right _ _⟩
    · rw [if_neg hcond]
      push_neg at hcond
      refine ⟨u.take chunk_size, _, rfl, ?_, ?_⟩
      · rw [List.take_take, Nat.min_eq_left hco]
      · rw [List.length_take]
        omega

/-- Consecutive windows overlap by exactly `chunk_overlap` characters:
each non-final window is full (`chunk_size` characters) and its last
`chunk_overlap` characters are the first `chunk_overlap` characters of
the next window. -/
theorem windowsAux_chain (chunk_size chunk_overlap : Nat)
    (h : chunk_overlap < chunk_size) :
    ∀ (fuel : Nat) (t : List Char), t.length ≤ fuel →
      List.Chain'
        (fun a b => a.length = chunk_size ∧ chunk_overlap ≤ b.length ∧
          a.drop (chunk_size - chunk_overlap) = b.take chunk_overlap)
        (DocumentProcessor.windowsAux fuel chunk_size chunk_overlap t) := by
  intro fuel
  induction fuel with
  | zero =>
    intro t ht
    have ht0 : t = [] := List.length_eq_zero.mp (Nat.le_zero.mp ht)
    subst ht0
    exact List.chain'_singleton _
  | succ n ih =>
    intro t ht
    rw [DocumentProcessor.windowsAux]
    by_cases hcond : t.length ≤ chunk_size ∨ chunk_size ≤ chunk_overlap
    · rw [if_pos hcond]
      exact List.chain'_singleton _
    · rw [if_neg hcond]
      push_neg at hcond
      obtain ⟨hlen, _⟩ := hcond
      have hrl : (t.drop (chunk_size - chunk_overlap)).length =
          t.length - (chunk_size - chunk_overlap) := List.length_drop _ _
      have hrle : (t.drop (chunk_size - chunk_overlap)).length ≤ n := by omega
      have hcor : chunk_overlap < (t.drop (chunk_size - chunk_overlap)).length := by
        omega
      obtain ⟨v, l, hvl, hvtake, hvlen⟩ :=
        windowsAux_head chunk_size chunk_overlap (Nat.le_of_lt h) n
          (t.drop (chunk_size - chunk_overlap))
      have hchain := ih (t.drop (chunk_size - chunk_overlap)) hrle
      rw [hvl] at hchain ⊢
      refine List.Chain'.cons ⟨?_, ?_, ?_⟩ hchain
      · rw [List.length_take]
        omega
      · rw [Nat.min_eq_left (Nat.le_of_lt hcor)] at hvlen
        exact hvlen
      · rw [hvtake, List.drop_take]
        congr 1
        omega

/-- C3: (spec-modelled splitter) every chunk produced by
`split_documents` has at most `chunk_size` characters — unconditionally,
with no unsplittable-run exception, since the model splits down to single
characters — and within each source document consecutive chunks overlap
by exactly `chunk_overlap` characters: every non-final chunk is full and
its last `chunk_overlap` characters are the first `chunk_overlap`
characters of the next chunk. -/
theorem split_documents_chunk_invariants (chunk_size chunk_overlap : Nat)
    (h : chunk_overlap < chunk_size) (docs : List Document) :
    (∀ c ∈ DocumentProcessor.split_documents chunk_size chunk_overlap docs,
      c.text.length ≤ chunk_size) ∧
    (∀ d ∈ docs,
      List.Chain'
        (fun a b => a.text.length = chunk_size ∧ chunk_overlap ≤ b.text.length ∧
          a.text.drop (chunk_size - chunk_overlap) = b.text.take chunk_overlap)
        (DocumentProcessor.docChunks chunk_size chunk_overlap d)) := by
  constructor
  · intro c hc
    rw [DocumentProcessor.split_documents, List.mem_flatMap] at hc
    obtain ⟨d, _, hcd⟩ := hc
    rw [DocumentProcessor.docChunks, List.mem_map] at hcd
    obtain ⟨w, hw, rfl⟩ := hcd
    exact windowsAux_sizes chunk_size chunk_overlap h _ _ le_rfl w hw
  · intro d _
    rw [DocumentProcessor.docChunks, List.chain'_map]
    exact windowsAux_chain chunk_size chunk_overlap h _ _ le_rfl

/-- C3 witness: splitting an 8-character page with `chunk_size = 5` and
`chunk_overlap = 2` yields the windows `"abcde"`, `"defgh"`; the first
chunk is within bounds and the two overlap by the two characters `"de"`. -/
theorem split_documents_chunk_invariants_witness :
    (DocumentProcessor.Chunk.mk "abcde".toList (some "f.pdf") (some "1")).text.length ≤ 5 ∧
    List.Chain'
      (fun a b => a.text.length = 5 ∧ 2 ≤ b.text.length ∧
        a.text.drop 3 = b.text.take 2)
      (DocumentProcessor.docChunks 5 2
        { page_content := "abcdefgh", source := some "f.pdf", page := some "1" }) :=
  ⟨(split_documents_chunk_invariants 5 2 (by decide)
      [{ page_content := "abcdefgh", source := some "f.pdf", page := some "1" }]).1
      (DocumentProcessor.Chunk.mk "abcde".toList (some "f.pdf") (some "1")) (by decide),
   (split_documents_chunk_invariants 5 2 (by decide)
      [{ page_content := "abcdefgh", source := some "f.pdf", page := some "1" }]).2
      { page_content := "abcdefgh", source := some "f.pdf", page := some "1" }
      (by simp)⟩
